import Mathlib

/-!
Verification of the GraphQL gateway: schema composition precedence,
request-context extraction, monolith-fetcher header construction, and the
catalog product-lookup resolver, shallowly embedded from the TypeScript
source (apollo-fetcher.ts, the catalog extension, and the gateway main).
-/

namespace GraphQLGateway

/-- Per-request context (src `GraphQLContext`): optional bearer token,
optional currency code, optional store identifier. -/
structure GraphQLContext where
  legacyToken : Option String
  currency : Option String
  store : Option String

/-- A JS object with string keys and string values, as an association
list; `lookupKey` returns the binding of a key, or `none` when the key is
absent (the code only ever builds duplicate-free lists). -/
abbrev StrMap := List (String × String)

/-- Key lookup in a `StrMap`. -/
def lookupKey (m : StrMap) (k : String) : Option String :=
  (m.find? (fun e => e.1 == k)).map (fun e => e.2)

/-- Embeds `filterUndefinedEntries` (apollo-fetcher.ts lines 52-56): build
a new object keeping only the entries whose value is not undefined. -/
def filterUndefinedEntries (obj : List (String × Option String)) : StrMap :=
  obj.filterMap (fun e => e.2.map (fun v => (e.1, v)))

/-- JS template-literal interpolation of a possibly-undefined string: an
undefined value is coerced to the six-character string "undefined". This
is what `Bearer ${context.legacyToken}` evaluates in apollo-fetcher.ts. -/
def jsInterp : Option String → String
  | some s => s
  | none => "undefined"

/-- Embeds the header construction of `createMonolithApolloFetcher`
(apollo-fetcher.ts lines 19-32): start from a Content-Type header; when a
context object is present on the operation, `Object.assign` the result of
`filterUndefinedEntries` applied to the Authorization (a template literal
over the token), Content-Currency and Store entries. The assigned keys
are disjoint from Content-Type, so list append models the merge. -/
def monolithFetcherHeaders (ctx : Option GraphQLContext) : StrMap :=
  let headers : StrMap := [("Content-Type", "application/json")]
  match ctx with
  | none => headers
  | some c =>
      headers ++ filterUndefinedEntries
        [ ("Authorization", some ("Bearer " ++ jsInterp c.legacyToken))
        , ("Content-Currency", c.currency)
        , ("Store", c.store) ]

/-- Embeds the fastify `context` callback (gateway main, lines 61-65):
legacyToken from the `authorization` header, currency from the
`Content-Currency` header, store from the `Store` header; a missing
header yields an absent field. A total, pure function of the headers. -/
def contextFromRequest (headers : StrMap) : GraphQLContext :=
  { legacyToken := lookupKey headers "authorization"
  , currency := lookupKey headers "Content-Currency"
  , store := lookupKey headers "Store" }

/-- A catalog product record as returned by the catalog backend: a SKU
and a name. -/
structure ProductItem where
  sku : String
  name : String

/-- The catalog RPC request message: a list of product identifiers and a
store scope (protobuf message `ProductsGetRequest`). -/
structure ProductsGetRequest where
  idsList : List String
  store : String

/-- Default-constructed `ProductsGetRequest` (protobuf defaults: empty
repeated field, empty string). -/
def ProductsGetRequest.new : ProductsGetRequest :=
  { idsList := [], store := "" }

/-- Protobuf setter for the ids list. -/
def ProductsGetRequest.setIdsList (m : ProductsGetRequest)
    (ids : List String) : ProductsGetRequest :=
  { m with idsList := ids }

/-- Protobuf setter for the store field. -/
def ProductsGetRequest.setStore (m : ProductsGetRequest)
    (s : String) : ProductsGetRequest :=
  { m with store := s }

/-- Embeds the request construction of `productByID` (catalog extension
lines 35-37): a fresh message, `setIdsList([args.id])`,
`setStore('default')`. -/
def productByIDRequest (id : String) : ProductsGetRequest :=
  (ProductsGetRequest.new.setIdsList [id]).setStore "default"

/-- The GraphQL result shape of the `productByID` field. -/
structure CatalogServiceProduct where
  id : String
  name : String

/-- Outcome of resolving `productByID`, distinguishing a deliberately
raised error (the `assert` call: a catchable Error surfaced as a
field-level resolution error) from an unhandled TypeError fault caused by
a member access on undefined. -/
inductive ResolveOutcome where
  | ok (p : CatalogServiceProduct)
  | raisedError (msg : String)
  | typeFault

/-- Embeds the response handling of `productByID` (catalog extension
lines 39-48) as a function of the gRPC response (`none` when no response
object at all was received): `assert(res, ...)` raises on a missing
response; otherwise `const [product] = res.getItemsList()` binds the
first item and the code reads `product.getSku()` and `product.getName()`,
which on an empty items list is a member access on undefined — an
unhandled TypeError, modelled as `typeFault`. -/
def productByIDResolve (res : Option (List ProductItem)) : ResolveOutcome :=
  match res with
  | none => .raisedError "Did not receive a response from Catalog gRPC API"
  | some items =>
    match items with
    | [] => .typeFault
    | product :: _ => .ok { id := product.sku, name := product.name }

/-- A resolver's identity (which source's logic answers a field). -/
abbrev Resolver := String

/-- A schema source: field names bound to resolvers. -/
abbrev Schema := List (String × Resolver)

/-- Which resolver a single schema defines for a field, if any. -/
def schemaLookup (s : Schema) (f : String) : Option Resolver :=
  (s.find? (fun d => d.1 == f)).map (fun d => d.2)

/-- Modelled from the spec: `mergeSchemas` comes from the graphql-tools
library and is not part of this repository. Per the source comment
"schemas are last-in-wins" and the spec invariant that the source later
in the list wins, a field defined by several schemas resolves via the
schema latest in the list that defines it. -/
def mergeSchemasResolve (schemas : List Schema) (f : String) : Option Resolver :=
  schemas.foldl
    (fun acc s =>
      match schemaLookup s f with
      | some r => some r
      | none => acc)
    none

/-- Embeds the schema-list construction of the gateway `main` (lines
23-48): the local schema first, then the remote I/O schema when the
IO_PACKAGES variable is set, then the monolith fallback schema when the
LEGACY_GRAPHQL_URL variable is set. -/
def gatewaySchemas (ioPackagesSet legacyUrlSet : Bool)
    (localSchema remoteSchema legacySchema : Schema) : List Schema :=
  [localSchema]
    ++ (if ioPackagesSet then [remoteSchema] else [])
    ++ (if legacyUrlSet then [legacySchema] else [])

/-- The error message thrown by `prepareFallbackSchema` (gateway main,
lines 152-158) when introspection of the legacy endpoint fails. -/
def introspectionFailureMessage (legacyURL : String) : String :=
  "Failed introspecting remote Magento schema at \"" ++ legacyURL ++
    "\". Make sure that the LEGACY_GRAPHQL_URL variable has the " ++
    "correct value for your Magento instance"

/-- Embeds `prepareFallbackSchema` (gateway main, lines 142-164) as a
function of the result of the one-time introspection call: a failed
introspection is rethrown as an Error naming the configured endpoint (the
throw propagates out of `main` and aborts startup); a successful one
yields the remote executable schema. -/
def prepareFallbackSchema (legacyURL : String)
    (introspection : Except String Schema) : Except String Schema :=
  match introspection with
  | .error _ => .error (introspectionFailureMessage legacyURL)
  | .ok s => .ok s

/-- C1: schema composition precedence. With the remote I/O source
configured, a field the remote schema defines (and that a configured
legacy schema does not define) resolves via the remote schema even when
the local schema also defines it; and a field a configured legacy schema
defines always resolves via the legacy schema, whatever the local and
remote schemas define — the legacy source is never overridden. -/
theorem composition_precedence
    (ioPackagesSet legacyUrlSet : Bool)
    (localSchema remoteSchema legacySchema : Schema) (f : String) :
    (ioPackagesSet = true →
      ∀ r, schemaLookup remoteSchema f = some r →
        (legacyUrlSet = true → schemaLookup legacySchema f = none) →
        mergeSchemasResolve
          (gatewaySchemas ioPackagesSet legacyUrlSet
            localSchema remoteSchema legacySchema) f = some r)
    ∧ (legacyUrlSet = true →
      ∀ r, schemaLookup legacySchema f = some r →
        mergeSchemasResolve
          (gatewaySchemas ioPackagesSet legacyUrlSet
            localSchema remoteSchema legacySchema) f = some r) := by
  constructor
  · intro hio r hr hlg
    subst hio
    cases legacyUrlSet
    · simp [gatewaySchemas, mergeSchemasResolve, hr]
    · simp [gatewaySchemas, mergeSchemasResolve, hr, hlg rfl]
  · intro hlg r hr
    subst hlg
    cases ioPackagesSet <;>
      simp [gatewaySchemas, mergeSchemasResolve, hr]

/-- Witness for composition_precedence at concrete schemas: a field
defined locally and remotely resolves via the remote resolver, and a
field defined remotely and by the legacy schema resolves via the legacy
resolver. -/
theorem composition_precedence_witness :
    mergeSchemasResolve
      (gatewaySchemas true true
        [("a", "local-a"), ("b", "local-b")]
        [("a", "remote-a"), ("c", "remote-c")]
        [("c", "legacy-c")]) "a" = some "remote-a"
    ∧ mergeSchemasResolve
      (gatewaySchemas true true
        [("a", "local-a"), ("b", "local-b")]
        [("a", "remote-a"), ("c", "remote-c")]
        [("c", "legacy-c")]) "c" = some "legacy-c" :=
  ⟨(composition_precedence true true
      [("a", "local-a"), ("b", "local-b")]
      [("a", "remote-a"), ("c", "remote-c")]
      [("c", "legacy-c")] "a").1 rfl "remote-a" rfl (fun _ => rfl),
   (composition_precedence true true
      [("a", "local-a"), ("b", "local-b")]
      [("a", "remote-a"), ("c", "remote-c")]
      [("c", "legacy-c")] "c").2 rfl "legacy-c" rfl⟩

/-- C2 (code bug): with a context present whose token field is absent,
the code still attaches an Authorization header, valued
"Bearer undefined" — the template literal coerces the undefined token to
the string "undefined", so filterUndefinedEntries never removes the
Authorization entry, contradicting the documented omission contract. -/
theorem authorization_header_attached_without_token :
    lookupKey (monolithFetcherHeaders (some ⟨none, none, none⟩))
        "Authorization" = some "Bearer undefined"
    ∧ monolithFetcherHeaders (some ⟨none, none, none⟩)
        = [("Content-Type", "application/json"),
           ("Authorization", "Bearer undefined")] :=
  ⟨rfl, rfl⟩

/-- C3 (code bug): on a response whose items list is empty, productByID
destructures the first element of the empty list and reads sku off
undefined — an unhandled TypeError fault, which is neither a null result
nor a defined not-found error. -/
theorem empty_items_faults :
    productByIDResolve (some []) = ResolveOutcome.typeFault := rfl

/-- C4: a context whose currency field is absent produces an outbound
request with no Content-Currency header key at all, and a context whose
store field is absent produces one with no Store header key at all. -/
theorem absent_currency_and_store_headers_omitted (c : GraphQLContext) :
    (c.currency = none →
      lookupKey (monolithFetcherHeaders (some c)) "Content-Currency" = none)
    ∧ (c.store = none →
      lookupKey (monolithFetcherHeaders (some c)) "Store" = none) := by
  rcases c with ⟨t, cur, st⟩
  constructor
  · intro h
    subst h
    cases t <;> cases st <;> rfl
  · intro h
    subst h
    cases t <;> cases cur <;> rfl

/-- Witness for absent_currency_and_store_headers_omitted at concrete
contexts: one lacking a currency, one lacking a store. -/
theorem absent_currency_and_store_headers_omitted_witness :
    lookupKey (monolithFetcherHeaders (some ⟨some "tok", none, some "s1"⟩))
        "Content-Currency" = none
    ∧ lookupKey (monolithFetcherHeaders (some ⟨some "tok", some "USD", none⟩))
        "Store" = none :=
  ⟨(absent_currency_and_store_headers_omitted ⟨some "tok", none, some "s1"⟩).1 rfl,
   (absent_currency_and_store_headers_omitted ⟨some "tok", some "USD", none⟩).2 rfl⟩

/-- C5: the catalog request built for an identifier has the identifiers
list equal to the single-element list holding that identifier, and the
store field equal to "default". -/
theorem productByID_request_fields (id : String) :
    (productByIDRequest id).idsList = [id]
    ∧ (productByIDRequest id).store = "default" :=
  ⟨rfl, rfl⟩

/-- C6: with no response object at all, the resolver raises the assert
error — a raised, catchable error surfaced as a field-level resolution
error, not a process crash — and with any received response the
missing-response error branch is never taken. -/
theorem missing_response_raises_assert :
    productByIDResolve none
      = ResolveOutcome.raisedError
          "Did not receive a response from Catalog gRPC API"
    ∧ ∀ (items : List ProductItem) (m : String),
        productByIDResolve (some items) ≠ ResolveOutcome.raisedError m := by
  constructor
  · rfl
  · intro items m
    cases items <;> simp [productByIDResolve]

/-- Witness for missing_response_raises_assert: the error branch is not
taken on a concrete received response. -/
theorem missing_response_raises_assert_witness :
    productByIDResolve (some [⟨"sku1", "Shirt"⟩])
      ≠ ResolveOutcome.raisedError
          "Did not receive a response from Catalog gRPC API" :=
  missing_response_raises_assert.2 [⟨"sku1", "Shirt"⟩]
    "Did not receive a response from Catalog gRPC API"

/-- C7: with at least one item in the response, the result is the
projection of the first item only — its SKU as the identifier and its
name — and any additional items do not affect the result. -/
theorem first_item_projection (p : ProductItem) (rest : List ProductItem) :
    productByIDResolve (some (p :: rest))
      = ResolveOutcome.ok ⟨p.sku, p.name⟩
    ∧ productByIDResolve (some (p :: rest)) = productByIDResolve (some [p]) :=
  ⟨rfl, rfl⟩

/-- C8: context extraction is a total, pure function of the inbound
header map: with only an authorization header present the derived context
has a present token and absent currency and store; with no headers at
all, all three fields are absent — a missing header is never an error. -/
theorem context_extraction (v : String) :
    contextFromRequest [("authorization", v)] = ⟨some v, none, none⟩
    ∧ contextFromRequest [] = ⟨none, none, none⟩ :=
  ⟨rfl, rfl⟩

/-- C9: a failed introspection call makes prepareFallbackSchema throw an
error whose message contains the configured endpoint URL (the throw
propagates out of main and aborts startup); the failure is never
swallowed into a successful schema. -/
theorem introspection_failure_fatal (legacyURL err : String) :
    prepareFallbackSchema legacyURL (Except.error err)
      = Except.error (introspectionFailureMessage legacyURL)
    ∧ (∃ pre suf,
        introspectionFailureMessage legacyURL = pre ++ legacyURL ++ suf)
    ∧ ∀ s, prepareFallbackSchema legacyURL (Except.error err) ≠ Except.ok s := by
  refine ⟨rfl, ?_, ?_⟩
  · refine ⟨"Failed introspecting remote Magento schema at \"",
      "\". Make sure that the LEGACY_GRAPHQL_URL variable has the " ++
        "correct value for your Magento instance", ?_⟩
    simp [introspectionFailureMessage, String.append_assoc]
  · intro s
    simp [prepareFallbackSchema]

/-- Witness for introspection_failure_fatal at a concrete endpoint URL
and a concrete introspection error. -/
theorem introspection_failure_fatal_witness :
    prepareFallbackSchema "http://magento.test/graphql"
        (Except.error "ECONNREFUSED")
      = Except.error
          (introspectionFailureMessage "http://magento.test/graphql") :=
  (introspection_failure_fatal "http://magento.test/graphql" "ECONNREFUSED").1

/-- C10: with no context object on the operation, the outbound request
carries exactly one header: Content-Type set to application/json. -/
theorem no_context_headers :
    monolithFetcherHeaders none = [("Content-Type", "application/json")] := rfl

end GraphQLGateway
